import Mathlib

/-!
Verification development for the Darwin UDP datapath abstraction layer
(`src/platform/datapath_darwin.c`).

The C code is shallowly embedded: pointers become optional values, the
kernel (socket syscalls) becomes an explicit oracle, stateful functions
return their updated state together with the trace of syscalls they
issued, and a `QUIC_FRE_ASSERT` failure (process termination) is
modelled as `none` in an `Option` result.  Machine integers in the
source are used only as flags, counters and identifiers, never near an
overflow boundary, so they are embedded as `Nat`.

`QUIC_ADDR` is a union of `sockaddr_in` / `sockaddr_in6` (spec §3 and
§9).  In both views the 16-bit port occupies the same bytes (offset 2),
so the union is flattened into a structure with a single shared `port`
field; the address bodies and the v6 scope id do not alias any field the
code reads through the other view, so they are kept separate.
-/

/-! ## Platform constants (Darwin values) -/

def AF_INET : Nat := 2
def AF_INET6 : Nat := 30
def IPPROTO_IP : Nat := 0
def IPPROTO_IPV6 : Nat := 41
def IP_PKTINFO : Nat := 26
def IPV6_PKTINFO : Nat := 46
def EAGAIN : Nat := 35
def EWOULDBLOCK : Nat := 35
def QUIC_STATUS_SUCCESS : Nat := 0
def QUIC_MAX_BATCH_SEND : Nat := 10

/-! ## Data model -/

/-- The `QUIC_ADDR` sockaddr union, flattened.  `port` models the bytes
shared by `Ipv4.sin_port` and `Ipv6.sin6_port`. -/
structure QUIC_ADDR where
  family : Nat
  port : Nat
  v4addr : Nat
  v6addr : Nat
  scopeId : Nat
deriving DecidableEq, Repr

def zeroQuicAddr : QUIC_ADDR := { family := 0, port := 0, v4addr := 0, v6addr := 0, scopeId := 0 }

/-- `QUIC_BUFFER`: `Buffer` is the payload pointer (`none` = NULL),
identified by an abstract id; `Length` mirrors the C field. -/
structure QUIC_BUFFER where
  Buffer : Option Nat
  Length : Nat
deriving DecidableEq, Repr

/-- `QUIC_DATAPATH_SEND_CONTEXT` (datapath_darwin.c:67-115). -/
structure QUIC_DATAPATH_SEND_CONTEXT where
  Bind : Bool
  LocalAddress : QUIC_ADDR
  RemoteAddress : QUIC_ADDR
  Pending : Bool
  BufferCount : Nat
  CurrentIndex : Nat
  Buffers : List QUIC_BUFFER
  Iovs : List (Option Nat × Nat)
deriving DecidableEq, Repr

/-- `QUIC_SOCKET_CONTEXT` (datapath_darwin.c:120-174); only the fields
the embedded operations read or write. -/
structure QUIC_SOCKET_CONTEXT where
  SocketFd : Nat
  SendWaiting : Bool
  PendingSendContextHead : List QUIC_DATAPATH_SEND_CONTEXT
deriving DecidableEq, Repr

/-- `QUIC_DATAPATH_BINDING` (datapath_darwin.c:179-226). -/
structure QUIC_DATAPATH_BINDING where
  LocalAddress : QUIC_ADDR
  RemoteAddress : QUIC_ADDR
  Connected : Bool
  Shutdown : Bool
  Mtu : Nat
deriving DecidableEq, Repr

/-- `QUIC_DATAPATH_PROC_CONTEXT` (datapath_darwin.c:231-269); the three
pools are modelled by abstract pool identities. -/
structure QUIC_DATAPATH_PROC_CONTEXT where
  Index : Nat
  RecvBlockPool : Nat
  SendBufferPool : Nat
  SendContextPool : Nat
deriving DecidableEq, Repr, Inhabited

/-- `QUIC_DATAPATH` (datapath_darwin.c:275-317). -/
structure QUIC_DATAPATH where
  MaxSendBatchSize : Nat
  ProcCount : Nat
  ProcContexts : List QUIC_DATAPATH_PROC_CONTEXT
deriving DecidableEq, Repr

/-- `QuicDataPathInitialize` (datapath_darwin.c:562-621), restricted to
the fields of the datapath object it sets: `ProcCount = 1`,
`MaxSendBatchSize = QUIC_MAX_BATCH_SEND`, one processor context of
index 0 owning the three per-worker pools. -/
def QuicDataPathInitialize (clientRecvContextLength : Nat) : QUIC_DATAPATH :=
  { MaxSendBatchSize := QUIC_MAX_BATCH_SEND
    ProcCount := 1
    ProcContexts := [{ Index := 0, RecvBlockPool := clientRecvContextLength * 3
                       SendBufferPool := clientRecvContextLength * 3 + 1
                       SendContextPool := clientRecvContextLength * 3 + 2 }] }

/-! ## Receive path -/

/-- A `QUIC_DATAPATH_RECV_BLOCK` (datapath_darwin.c:34-61): the pool
back-pointer set at allocation, an abstract block identity, and the
`Allocated` flag of the embedded `QUIC_RECV_DATAGRAM`. -/
structure QUIC_DATAPATH_RECV_BLOCK where
  OwningPool : Nat
  BlockId : Nat
  Allocated : Bool
deriving DecidableEq, Repr

/-- `QuicDataPathAllocRecvBlock` (datapath_darwin.c:1004-1025).
`poolResult` is the outcome of `QuicPoolAlloc` on
`ProcContexts[ProcIndex].RecvBlockPool` (`none` = exhausted); on success
the block is zeroed and `OwningPool` is set to that same pool. -/
def QuicDataPathAllocRecvBlock (Datapath : QUIC_DATAPATH) (ProcIndex : Nat)
    (poolResult : Option Nat) : Option QUIC_DATAPATH_RECV_BLOCK :=
  match poolResult with
  | none => none
  | some blockId =>
      some { OwningPool := (Datapath.ProcContexts.getD ProcIndex default).RecvBlockPool
             BlockId := blockId
             Allocated := true }

/-- `QuicDataPathBindingReturnRecvDatagrams` (datapath_darwin.c:1313-1326).
The `Next`-linked datagram chain is a list; the result is the ordered
list of `QuicPoolFree(RecvBlock->OwningPool, RecvBlock)` calls issued,
as (pool, block) pairs. -/
def QuicDataPathBindingReturnRecvDatagrams :
    List QUIC_DATAPATH_RECV_BLOCK → List (Nat × Nat)
  | [] => []
  | blk :: rest =>
      (blk.OwningPool, blk.BlockId) :: QuicDataPathBindingReturnRecvDatagrams rest

/-- One ancillary (control) message of the received msghdr.  The C code
reinterprets `CMSG_DATA` as `in6_pktinfo` or `in_pktinfo` depending on
the level/type pair; both views are carried as fields. -/
structure cmsghdr where
  cmsg_level : Nat
  cmsg_type : Nat
  pktinfo6_addr : Nat
  pktinfo6_ifindex : Nat
  pktinfo4_addr : Nat
  pktinfo4_ifindex : Nat
deriving DecidableEq, Repr

/-- Whether a control message is one of the two records the receive
loop recognises (datapath_darwin.c:381-382 and 394). -/
def isPktInfoMatch (c : cmsghdr) : Bool :=
  (c.cmsg_level == IPPROTO_IPV6 && c.cmsg_type == IPV6_PKTINFO) ||
  (c.cmsg_level == IPPROTO_IP && c.cmsg_type == IP_PKTINFO)

/-- Modelled from the spec: `QuicConvertFromMappedV6` is declared by the
platform library, not by this source file.  Spec §9 ("Polymorphic
socket-address union") describes it as the total v4-mapped-v6
normalization between the variants: a v6 address of the mapped form
`::ffff:a.b.c.d` becomes the v4 address `a.b.c.d` (same port); every
other address is left unchanged. -/
def QuicConvertFromMappedV6 (a : QUIC_ADDR) : QUIC_ADDR :=
  if a.family == AF_INET6 && (a.v6addr / 4294967296 == 65535) then
    { a with family := AF_INET, v4addr := a.v6addr % 4294967296 }
  else
    a

/-- The `IPV6_PKTINFO` branch of the receive loop
(datapath_darwin.c:383-391): family, address and port are written into
the tuple's local address (the port copied from the binding — in the
sockaddr union `sin6_port` is the binding's one port field), then the
address is normalized, then the scope id is set from the ancillary
interface index. -/
def recvApplyPktInfo6 (Binding : QUIC_DATAPATH_BINDING) (LocalAddr : QUIC_ADDR)
    (c : cmsghdr) : QUIC_ADDR :=
  let a1 := { LocalAddr with
                family := AF_INET6
                v6addr := c.pktinfo6_addr
                port := Binding.LocalAddress.port }
  let a2 := QuicConvertFromMappedV6 a1
  { a2 with scopeId := c.pktinfo6_ifindex }

/-- The `IP_PKTINFO` branch of the receive loop
(datapath_darwin.c:395-399): family, v4 address, port (again the
binding's port bytes, read through the `Ipv6` view of the union) and
scope id are written. -/
def recvApplyPktInfo4 (Binding : QUIC_DATAPATH_BINDING) (LocalAddr : QUIC_ADDR)
    (c : cmsghdr) : QUIC_ADDR :=
  { LocalAddr with
      family := AF_INET
      v4addr := c.pktinfo4_addr
      port := Binding.LocalAddress.port
      scopeId := c.pktinfo4_ifindex }

/-- The `CMSG_FIRSTHDR`/`CMSG_NXTHDR` walk (datapath_darwin.c:376-403):
each record is tested first for `IPV6_PKTINFO`, then for `IP_PKTINFO`;
the first match is applied and the loop breaks.  `none` means the walk
ended with `FoundLocalAddr == FALSE`. -/
def recvFindLocalAddr (Binding : QUIC_DATAPATH_BINDING) (LocalAddr : QUIC_ADDR) :
    List cmsghdr → Option QUIC_ADDR
  | [] => none
  | c :: rest =>
      if c.cmsg_level == IPPROTO_IPV6 && c.cmsg_type == IPV6_PKTINFO then
        some (recvApplyPktInfo6 Binding LocalAddr c)
      else if c.cmsg_level == IPPROTO_IP && c.cmsg_type == IP_PKTINFO then
        some (recvApplyPktInfo4 Binding LocalAddr c)
      else
        recvFindLocalAddr Binding LocalAddr rest

/-- The datagram handed to the user receive callback. -/
structure RECV_RESULT where
  LocalAddress : QUIC_ADDR
  RemoteAddress : QUIC_ADDR
  BufferLength : Nat
  PartitionIndex : Nat
deriving DecidableEq, Repr

/-- `QuicSocketContextRecvComplete` (datapath_darwin.c:355-436) up to the
invocation of the user receive callback.  Inputs: the binding, the
zero-initialized local address of the in-flight block's tuple, the
control messages of the received msghdr, the remote address the kernel
wrote into `msg_name`, the byte count returned by `recvmsg`, and
`ProcContext->Index` of the worker driving the receive.  `none` models
the process terminating on `QUIC_FRE_ASSERT(FoundLocalAddr)`
(datapath_darwin.c:405). -/
def QuicSocketContextRecvComplete (Binding : QUIC_DATAPATH_BINDING)
    (initialLocalAddr : QUIC_ADDR) (cmsgs : List cmsghdr)
    (msgName : QUIC_ADDR) (BytesTransferred : Nat) (procIndex : Nat) :
    Option RECV_RESULT :=
  (recvFindLocalAddr Binding initialLocalAddr cmsgs).map fun localAddr =>
    { LocalAddress := localAddr
      RemoteAddress := msgName
      BufferLength := BytesTransferred
      PartitionIndex := procIndex }

/-! ## Send path -/

/-- Outcome of a `sendto`/`sendmsg` syscall: `ok` is a non-negative
byte count, `err e` is a `-1` return with `errno = e`. -/
inductive SendtoOutcome
  | ok (sent : Nat)
  | err (e : Nat)
deriving DecidableEq, Repr

/-- The kernel oracle: the outcome of the `sendto` issued on loop
iteration `i` of the connected send path, and the outcome of the single
`sendmsg` of the bound send path. -/
structure KernelModel where
  sendtoAt : Nat → SendtoOutcome
  sendmsgResult : SendtoOutcome

/-- A socket syscall as issued to the kernel, with all the arguments
the C passes.  A connected-path call is
`sendto(fd, Buffers[i].Buffer, Buffers[i].Length, 0, NULL, 0)`
(datapath_darwin.c:1514-1520); the bound-path call is a single
`sendmsg` whose msghdr carries the I/O vector, the (zeroed)
`MappedRemoteAddress` name and one PKTINFO control record
(datapath_darwin.c:1590-1627). -/
inductive Syscall
  | sendto (fd : Nat) (buf : Option Nat) (len : Nat) (flags : Nat)
      (addr : Option QUIC_ADDR) (addrlen : Nat)
  | sendmsg (fd : Nat) (iovs : List (Option Nat × Nat)) (msgName : QUIC_ADDR)
      (cmsgLevel cmsgType pktAddr pktIfindex : Nat)
deriving DecidableEq, Repr

/-- How the per-datagram loop of the connected send path ended. -/
inductive LoopExit
  | completed
  | blocked
  | failed (e : Nat)
deriving DecidableEq, Repr

/-- The `for (i = CurrentIndex; i < BufferCount; ++i, CurrentIndex++)`
loop of `QuicDataPathBindingSend` (datapath_darwin.c:1497-1563), with
`fuel = BufferCount - CurrentIndex` remaining iterations starting at
index `i`.  Returns the syscalls issued, the final `CurrentIndex`
(incremented only after a successful iteration, so a blocking or
failing `sendto` leaves it at the blocked buffer's index), and how the
loop ended.  `errno == EAGAIN || errno == EWOULDBLOCK` exits as
`blocked`; any other error exits as `failed`. -/
def sendLoopGo (k : Nat → SendtoOutcome) (fd : Nat) (bufs : List QUIC_BUFFER) :
    Nat → Nat → List Syscall × Nat × LoopExit
  | 0, i => ([], i, LoopExit.completed)
  | fuel + 1, i =>
      let b := bufs.getD i { Buffer := none, Length := 0 }
      let call := Syscall.sendto fd b.Buffer b.Length 0 none 0
      match k i with
      | SendtoOutcome.ok _ =>
          let r := sendLoopGo k fd bufs fuel (i + 1)
          (call :: r.1, r.2)
      | SendtoOutcome.err e =>
          if e == EAGAIN || e == EWOULDBLOCK then
            ([call], i, LoopExit.blocked)
          else
            ([call], i, LoopExit.failed e)

/-- The complete result of a `QuicDataPathBindingSend` call: the
returned `QUIC_STATUS`, the send context and socket context as left
behind, whether `QuicDataPathBindingFreeSendContext` ran, and the
syscalls issued. -/
structure SEND_RESULT where
  status : Nat
  ctx : QUIC_DATAPATH_SEND_CONTEXT
  sock : QUIC_SOCKET_CONTEXT
  freed : Bool
  calls : List Syscall
deriving DecidableEq, Repr

/-- `QuicDataPathBindingSend` (datapath_darwin.c:1459-1676).

`LocalAddress == NULL` (the connected path): one `sendto` per buffer,
destination `NULL/0` (the `RemoteAddress` arguments of the call are
commented out in the source, datapath_darwin.c:1520-1521); on
`EAGAIN`/`EWOULDBLOCK` the `QuicSocketContextPendSend` call is
commented out (datapath_darwin.c:1526-1536), so only `SendPending` is
set and the function exits — the context's `Pending` flag, the socket's
pending list and `SendWaiting` are all left untouched.

`LocalAddress != NULL` (the bound path): the iovecs are rebuilt from the
buffers, and a single `sendmsg` is issued whose name is the zeroed
`MappedRemoteAddress` (the `QuicConvertToMappedV6` call is commented
out, datapath_darwin.c:1588) and whose control record is an
`IP_PKTINFO` (for an `AF_INET` local address) or `IPV6_PKTINFO`
ancillary record built from the local address and its scope id.

In all paths `Status` is the first error's errno, otherwise
`QUIC_STATUS_SUCCESS`, and the context is freed unless `SendPending`
(datapath_darwin.c:1671-1673). -/
def QuicDataPathBindingSend (k : KernelModel) (Binding : QUIC_DATAPATH_BINDING)
    (LocalAddress : Option QUIC_ADDR) (RemoteAddress : QUIC_ADDR)
    (SendContext : QUIC_DATAPATH_SEND_CONTEXT) (SocketContext : QUIC_SOCKET_CONTEXT) :
    SEND_RESULT :=
  match LocalAddress with
  | none =>
      let r := sendLoopGo k.sendtoAt SocketContext.SocketFd SendContext.Buffers
                 (SendContext.BufferCount - SendContext.CurrentIndex)
                 SendContext.CurrentIndex
      { status := match r.2.2 with
                  | LoopExit.failed e => e
                  | _ => QUIC_STATUS_SUCCESS
        ctx := { SendContext with CurrentIndex := r.2.1 }
        sock := SocketContext
        freed := match r.2.2 with
                 | LoopExit.blocked => false
                 | _ => true
        calls := r.1 }
  | some l =>
      let iovs := (List.range SendContext.BufferCount).map fun i =>
        let b := SendContext.Buffers.getD i { Buffer := none, Length := 0 }
        (b.Buffer, b.Length)
      let cmsgLevel := if l.family == AF_INET then IPPROTO_IP else IPPROTO_IPV6
      let cmsgType := if l.family == AF_INET then IP_PKTINFO else IPV6_PKTINFO
      let pktAddr := if l.family == AF_INET then l.v4addr else l.v6addr
      let call := Syscall.sendmsg SocketContext.SocketFd iovs zeroQuicAddr
                    cmsgLevel cmsgType pktAddr l.scopeId
      let ctx := { SendContext with Iovs := iovs }
      match k.sendmsgResult with
      | SendtoOutcome.ok _ =>
          { status := QUIC_STATUS_SUCCESS, ctx := ctx, sock := SocketContext
            freed := true, calls := [call] }
      | SendtoOutcome.err e =>
          if e == EAGAIN || e == EWOULDBLOCK then
            { status := QUIC_STATUS_SUCCESS, ctx := ctx, sock := SocketContext
              freed := false, calls := [call] }
          else
            { status := e, ctx := ctx, sock := SocketContext
              freed := true, calls := [call] }

/-- `QuicDataPathBindingSendFromTo` (datapath_darwin.c:1709-1719): the
body is `QUIC_FRE_ASSERT(FALSE)` followed by an unreachable
`return QUIC_STATUS_SUCCESS`, so every call terminates the process
before issuing any syscall; `none` models the termination. -/
def QuicDataPathBindingSendFromTo (Binding : QUIC_DATAPATH_BINDING)
    (LocalAddress RemoteAddress : QUIC_ADDR)
    (SendContext : QUIC_DATAPATH_SEND_CONTEXT) : Option SEND_RESULT :=
  none

/-- `QuicDataPathBindingAllocSendDatagram` (datapath_darwin.c:1387-1431).
`poolResult` is the outcome of `QuicPoolAlloc` on the owner's
`SendBufferPool`.  When `BufferCount == MaxSendBatchSize` it returns
NULL (`none`).  Otherwise `Buffer` is set to `&Buffers[BufferCount]`
and the slot is zeroed; when the pool allocation fails the function
falls to `Exit` and returns that slot pointer — a non-NULL
`QUIC_BUFFER*` whose `Buffer` field is NULL — without touching
`BufferCount`.  On success the slot, the matching iovec and
`BufferCount` are updated.  The returned `Option QUIC_BUFFER` is the
value behind the returned pointer (`none` = NULL pointer). -/
def QuicDataPathBindingAllocSendDatagram (Datapath : QUIC_DATAPATH)
    (poolResult : Option Nat) (SendContext : QUIC_DATAPATH_SEND_CONTEXT)
    (MaxBufferLength : Nat) :
    Option QUIC_BUFFER × QUIC_DATAPATH_SEND_CONTEXT :=
  if SendContext.BufferCount == Datapath.MaxSendBatchSize then
    (none, SendContext)
  else
    match poolResult with
    | none =>
        let zeroedSlot : QUIC_BUFFER := { Buffer := none, Length := 0 }
        (some zeroedSlot,
         { SendContext with
             Buffers := SendContext.Buffers.set SendContext.BufferCount zeroedSlot })
    | some p =>
        let buf : QUIC_BUFFER := { Buffer := some p, Length := MaxBufferLength }
        (some buf,
         { SendContext with
             Buffers := SendContext.Buffers.set SendContext.BufferCount buf
             Iovs := SendContext.Iovs.set SendContext.BufferCount (some p, MaxBufferLength)
             BufferCount := SendContext.BufferCount + 1 })

/-- `QuicDataPathBindingIsSendContextFull` (datapath_darwin.c:1451-1457);
`Datapath` is `SendContext->Owner->Datapath`. -/
def QuicDataPathBindingIsSendContextFull (Datapath : QUIC_DATAPATH)
    (SendContext : QUIC_DATAPATH_SEND_CONTEXT) : Bool :=
  SendContext.BufferCount == Datapath.MaxSendBatchSize

/-! ## Binding lifecycle -/

/-- What socket descriptors `QuicSocketContextInitialize` creates
(datapath_darwin.c:815-851): `socketCallFamilies` are the address
families passed to the two `socket()` calls in order, and
`socketFdFamily` is the family of the descriptor left in
`SocketContext->SocketFd` — the one subsequently configured, bound and
optionally connected. -/
structure SOCKET_SETUP where
  socketCallFamilies : List Nat
  socketFdFamily : Nat
deriving DecidableEq, Repr

/-- The socket-creation portion of `QuicSocketContextInitialize`
(datapath_darwin.c:815-851).  `af_family` is taken from
`RemoteAddress->Ip.sa_family` when a remote address is supplied,
otherwise from `LocalAddress->Ip.sa_family` (a NULL dereference — the
`none` result — when both are absent).  The first
`socket(af_family, SOCK_DGRAM, 0)` result is stored in `SocketFd` and
immediately overwritten by a second `socket(AF_INET, SOCK_DGRAM, 0)`
(datapath_darwin.c:838), so the descriptor actually used is always an
`AF_INET` one. -/
def QuicSocketContextInitializeSockets (LocalAddress RemoteAddress : Option QUIC_ADDR) :
    Option SOCKET_SETUP :=
  let af_family : Option Nat :=
    match RemoteAddress with
    | none => LocalAddress.map fun a => a.family
    | some r => some r.family
  af_family.map fun f =>
    { socketCallFamilies := [f, AF_INET], socketFdFamily := AF_INET }

/-- The observable outcome of one `QuicDataPathBindingCreate`
(datapath_darwin.c:1108-1215) run, as reference-count and descriptor
accounting. -/
structure CREATE_RESULT where
  succeeded : Bool
  fdOpen : List Bool
  bindingRundownAcquired : Nat
  bindingRundownReleased : Nat
  bindingsRundownAcquired : Nat
  bindingsRundownReleased : Nat
  bindingFreed : Bool
deriving DecidableEq, Repr

/-- `QuicDataPathBindingCreate` (datapath_darwin.c:1108-1215) for a
binding whose allocation succeeded, parameterized by which
`QuicSocketContextInitialize` and `QuicSocketContextStartReceive` calls
succeed.  The setup loop acquires one `Binding->Rundown` reference per
socket context (datapath_darwin.c:1158) and then one
`Datapath->BindingsRundown` reference (datapath_darwin.c:1161).  A
failing `QuicSocketContextInitialize` or `QuicSocketContextStartReceive`
closes its own descriptor on its error path
(datapath_darwin.c:996-999 and 1094-1097) and aborts both loops.  The
failure path of Create itself (datapath_darwin.c:1202-1212) releases
the `BindingsRundown` reference, uninitializes `Binding->Rundown` and
frees the binding, but — per the `TODO - Clean up socket contexts`
comment — neither closes the surviving descriptors nor releases any of
the per-context `Binding->Rundown` references. -/
def QuicDataPathBindingCreateRun (socketCount : Nat)
    (initOk startOk : Nat → Bool) : CREATE_RESULT :=
  match (List.range socketCount).find? (fun i => !(initOk i)) with
  | some j =>
      { succeeded := false
        fdOpen := (List.range socketCount).map fun i => decide (i < j)
        bindingRundownAcquired := socketCount
        bindingRundownReleased := 0
        bindingsRundownAcquired := 1
        bindingsRundownReleased := 1
        bindingFreed := true }
  | none =>
      match (List.range socketCount).find? (fun i => !(startOk i)) with
      | some j =>
          { succeeded := false
            fdOpen := (List.range socketCount).map fun i => !(i == j)
            bindingRundownAcquired := socketCount
            bindingRundownReleased := 0
            bindingsRundownAcquired := 1
            bindingsRundownReleased := 1
            bindingFreed := true }
      | none =>
          { succeeded := true
            fdOpen := List.replicate socketCount true
            bindingRundownAcquired := socketCount
            bindingRundownReleased := 0
            bindingsRundownAcquired := 1
            bindingsRundownReleased := 0
            bindingFreed := false }

/-- One observable step of `QuicDataPathBindingDelete`. -/
inductive DeleteStep
  | setShutdown
  | unregisterSocket (i : Nat)
  | closeSocket (i : Nat)
  | releaseBindingRundown (i : Nat)
  | waitBindingRundown
  | releaseBindingsRundown
  | uninitBindingRundown
  | freeBinding
deriving DecidableEq, Repr

/-- `QuicSocketContextUninitialize` (datapath_darwin.c:1217-1239) for
socket context `i`: the `kevent(..., EV_DELETE, ...)` unregistration is
commented out (datapath_darwin.c:1222-1235); the function closes the
descriptor and releases one `Binding->Rundown` reference. -/
def QuicSocketContextUninitializeSteps (i : Nat) : List DeleteStep :=
  [DeleteStep.closeSocket i, DeleteStep.releaseBindingRundown i]

/-- `QuicDataPathBindingDelete` (datapath_darwin.c:1247-1264) as its
ordered step sequence: set the shutdown flag, run
`QuicSocketContextUninitialize` for each of the `ProcCount` socket
contexts, wait on the binding rundown, release one datapath
`BindingsRundown` reference, uninitialize the binding rundown and free
the binding. -/
def QuicDataPathBindingDeleteSteps (procCount : Nat) : List DeleteStep :=
  DeleteStep.setShutdown ::
    ((List.range procCount).flatMap QuicSocketContextUninitializeSteps ++
      [DeleteStep.waitBindingRundown, DeleteStep.releaseBindingsRundown,
       DeleteStep.uninitBindingRundown, DeleteStep.freeBinding])

/-- The step sequence claim C5 states, written from the claim's words:
set the shutdown flag; for each socket context unregister the socket
from its worker's readiness queue, close its descriptor and release one
binding-rundown reference; wait for the binding rundown to drain;
release one datapath `BindingsRundown` reference; free the binding. -/
def claimedDeleteSteps (procCount : Nat) : List DeleteStep :=
  DeleteStep.setShutdown ::
    ((List.range procCount).flatMap (fun i =>
        [DeleteStep.unregisterSocket i, DeleteStep.closeSocket i,
         DeleteStep.releaseBindingRundown i]) ++
      [DeleteStep.waitBindingRundown, DeleteStep.releaseBindingsRundown,
       DeleteStep.freeBinding])

/-- Claim C5 amended: the same step sequence with the per-socket
readiness-queue unregistration removed (that `kevent` call is commented
out in the source). -/
def amendedDeleteSteps (procCount : Nat) : List DeleteStep :=
  DeleteStep.setShutdown ::
    ((List.range procCount).flatMap (fun i =>
        [DeleteStep.closeSocket i, DeleteStep.releaseBindingRundown i]) ++
      [DeleteStep.waitBindingRundown, DeleteStep.releaseBindingsRundown,
       DeleteStep.freeBinding])

/-- Recognizer for readiness-queue unregistration steps. -/
def isUnregisterStep : DeleteStep → Bool
  | DeleteStep.unregisterSocket _ => true
  | _ => false

/-- A connected-path syscall as the source issues it:
`sendto(fd, buf, len, 0, NULL, 0)`. -/
def isPlainSendto : Syscall → Bool
  | Syscall.sendto _ _ _ 0 none 0 => true
  | _ => false

/-! ## Concrete example states -/

def exAddrV6 : QUIC_ADDR :=
  { family := AF_INET6, port := 443, v4addr := 0, v6addr := 1, scopeId := 0 }

def exRemoteV6 : QUIC_ADDR :=
  { family := AF_INET6, port := 80, v4addr := 0, v6addr := 2, scopeId := 0 }

def exBinding : QUIC_DATAPATH_BINDING :=
  { LocalAddress := exAddrV6, RemoteAddress := exRemoteV6
    Connected := true, Shutdown := false, Mtu := 1500 }

/-- A send context holding one 100-byte datagram (buffer id 7). -/
def exSendContext1 : QUIC_DATAPATH_SEND_CONTEXT :=
  { Bind := false, LocalAddress := zeroQuicAddr, RemoteAddress := zeroQuicAddr
    Pending := false, BufferCount := 1, CurrentIndex := 0
    Buffers := [{ Buffer := some 7, Length := 100 }]
    Iovs := [(some 7, 100)] }

/-- A freshly zeroed send context (empty batch, full 10-slot arrays). -/
def exSendContextEmpty : QUIC_DATAPATH_SEND_CONTEXT :=
  { Bind := false, LocalAddress := zeroQuicAddr, RemoteAddress := zeroQuicAddr
    Pending := false, BufferCount := 0, CurrentIndex := 0
    Buffers := List.replicate 10 { Buffer := none, Length := 0 }
    Iovs := List.replicate 10 (none, 0) }

def exSocketContext : QUIC_SOCKET_CONTEXT :=
  { SocketFd := 4, SendWaiting := false, PendingSendContextHead := [] }

/-- A kernel whose send buffers are full: every `sendto`/`sendmsg`
fails with `EAGAIN`. -/
def exKernelBlock : KernelModel :=
  { sendtoAt := fun _ => SendtoOutcome.err EAGAIN
    sendmsgResult := SendtoOutcome.err EAGAIN }

/-- An `IPV6_PKTINFO` ancillary record for address id 1 on interface 3. -/
def exCmsg6 : cmsghdr :=
  { cmsg_level := IPPROTO_IPV6, cmsg_type := IPV6_PKTINFO
    pktinfo6_addr := 1, pktinfo6_ifindex := 3
    pktinfo4_addr := 0, pktinfo4_ifindex := 0 }

/-- The datagram `QuicSocketContextRecvComplete` produces from
`exBinding`, `[exCmsg6]`, remote `exRemoteV6`, 1200 bytes, worker 0. -/
def exRecvOut : RECV_RESULT :=
  { LocalAddress := { family := AF_INET6, port := 443, v4addr := 0, v6addr := 1, scopeId := 3 }
    RemoteAddress := exRemoteV6, BufferLength := 1200, PartitionIndex := 0 }

/-! ## Helper lemmas -/

/-- A local address produced by the control-message walk always carries
the binding's stored port. -/
theorem recvFindLocalAddr_port (b : QUIC_DATAPATH_BINDING) (init : QUIC_ADDR) :
    ∀ (cmsgs : List cmsghdr) (la : QUIC_ADDR),
      recvFindLocalAddr b init cmsgs = some la → la.port = b.LocalAddress.port := by
  intro cmsgs
  induction cmsgs with
  | nil => intro la h; simp [recvFindLocalAddr] at h
  | cons c rest ih =>
      intro la h
      unfold recvFindLocalAddr at h
      split at h
      · injection h with h'
        subst h'
        simp only [recvApplyPktInfo6, QuicConvertFromMappedV6]
        split <;> rfl
      · split at h
        · injection h with h'
          subst h'
          rfl
        · exact ih la h

/-- The control-message walk succeeds exactly when some record is an
`IPV6_PKTINFO` or `IP_PKTINFO`. -/
theorem recvFindLocalAddr_isSome (b : QUIC_DATAPATH_BINDING) (init : QUIC_ADDR) :
    ∀ cmsgs : List cmsghdr,
      (recvFindLocalAddr b init cmsgs).isSome = cmsgs.any isPktInfoMatch := by
  intro cmsgs
  induction cmsgs with
  | nil => rfl
  | cons c rest ih =>
      unfold recvFindLocalAddr
      rw [List.any_cons]
      cases hA : (c.cmsg_level == IPPROTO_IPV6 && c.cmsg_type == IPV6_PKTINFO) with
      | true => simp [isPktInfoMatch, hA]
      | false =>
          cases hB : (c.cmsg_level == IPPROTO_IP && c.cmsg_type == IP_PKTINFO) with
          | true => simp [isPktInfoMatch, hA, hB]
          | false => simp [isPktInfoMatch, hA, hB, ih]

/-- A blocked exit of the per-datagram loop happens exactly on an
`EAGAIN`/`EWOULDBLOCK` `sendto` at the final `CurrentIndex`. -/
theorem sendLoopGo_blocked_eagain (k : Nat → SendtoOutcome) (fd : Nat)
    (bufs : List QUIC_BUFFER) :
    ∀ (fuel i : Nat) (calls : List Syscall) (j : Nat),
      sendLoopGo k fd bufs fuel i = (calls, j, LoopExit.blocked) →
      ∃ e, k j = SendtoOutcome.err e ∧ (e == EAGAIN || e == EWOULDBLOCK) = true := by
  intro fuel
  induction fuel with
  | zero => intro i calls j h; simp [sendLoopGo] at h
  | succ fuel ih =>
      intro i calls j h
      unfold sendLoopGo at h
      cases hk : k i with
      | ok n =>
          rw [hk] at h
          injection h with h1 h2
          exact ih (i + 1) (sendLoopGo k fd bufs fuel (i + 1)).1 j (by rw [← h2])
      | err e =>
          rw [hk] at h
          dsimp only at h
          by_cases he : (e == EAGAIN || e == EWOULDBLOCK) = true
          · rw [if_pos he] at h
            injection h with h1 h2
            injection h2 with h3 h4
            exact ⟨e, h3 ▸ hk, he⟩
          · rw [if_neg he] at h
            injection h with h1 h2
            injection h2 with h3 h4
            exact absurd h4 (by simp)

/-- Every syscall the per-datagram loop issues is a
`sendto(fd, buf, len, 0, NULL, 0)`. -/
theorem sendLoopGo_calls_plain (k : Nat → SendtoOutcome) (fd : Nat)
    (bufs : List QUIC_BUFFER) :
    ∀ fuel i : Nat, ((sendLoopGo k fd bufs fuel i).1.all isPlainSendto) = true := by
  intro fuel
  induction fuel with
  | zero => intro i; rfl
  | succ fuel ih =>
      intro i
      unfold sendLoopGo
      cases hk : k i with
      | ok n => simp [hk, isPlainSendto, ih]
      | err e =>
          simp only [hk]
          split <;> simp [isPlainSendto]

/-! ## Claims -/

/-- Claim C1 (code bug): `QuicDataPathBindingSendFromTo` never transmits
anything and never returns normally — for every binding, local address,
remote address and send context it runs into `QUIC_FRE_ASSERT(FALSE)`
and terminates the process.  The single-`sendmsg`-with-PKTINFO behavior
the claim describes lives only in the `LocalAddress != NULL` branch of
`QuicDataPathBindingSend`, which this entry point never reaches. -/
theorem c1_send_from_to_always_terminates :
    ∀ (b : QUIC_DATAPATH_BINDING) (la ra : QUIC_ADDR)
      (sc : QUIC_DATAPATH_SEND_CONTEXT),
      QuicDataPathBindingSendFromTo b la ra sc = none :=
  fun _ _ _ _ => rfl

/-- Claim C2 counterexample: with every `sendto` failing `EAGAIN`, the
connected-path send of a one-buffer context returns SUCCESS without
freeing the context and with `CurrentIndex` still 0 — so the deferred
path is taken — yet the context's `Pending` flag stays `false`, the
socket context's pending list stays empty and `SendWaiting` stays
`false`, contrary to the claim (the `QuicSocketContextPendSend` call is
commented out in the source). -/
theorem c2_pending_send_counterexample :
    (QuicDataPathBindingSend exKernelBlock exBinding none exRemoteV6
        exSendContext1 exSocketContext).status = QUIC_STATUS_SUCCESS ∧
    (QuicDataPathBindingSend exKernelBlock exBinding none exRemoteV6
        exSendContext1 exSocketContext).freed = false ∧
    (QuicDataPathBindingSend exKernelBlock exBinding none exRemoteV6
        exSendContext1 exSocketContext).ctx.CurrentIndex = 0 ∧
    (QuicDataPathBindingSend exKernelBlock exBinding none exRemoteV6
        exSendContext1 exSocketContext).ctx.Pending = false ∧
    (QuicDataPathBindingSend exKernelBlock exBinding none exRemoteV6
        exSendContext1 exSocketContext).sock.PendingSendContextHead = [] ∧
    (QuicDataPathBindingSend exKernelBlock exBinding none exRemoteV6
        exSendContext1 exSocketContext).sock.SendWaiting = false := by
  decide

/-- Claim C2 amended: on the connected path, when a `sendto` fails with
`EWOULDBLOCK`/`EAGAIN`, the call returns SUCCESS, the context is not
freed and `CurrentIndex` is left at the index of the buffer that
blocked — but the context's `Pending` flag is not set, the context is
not linked into the socket context's pending list and `SendWaiting` is
not armed (the send context and socket context are returned exactly as
they came in, apart from `CurrentIndex`). -/
theorem c2_blocked_send_behavior (k : KernelModel) (b : QUIC_DATAPATH_BINDING)
    (ra : QUIC_ADDR) (sc : QUIC_DATAPATH_SEND_CONTEXT)
    (sock : QUIC_SOCKET_CONTEXT) (calls : List Syscall) (j : Nat)
    (h : sendLoopGo k.sendtoAt sock.SocketFd sc.Buffers
          (sc.BufferCount - sc.CurrentIndex) sc.CurrentIndex =
          (calls, j, LoopExit.blocked)) :
    QuicDataPathBindingSend k b none ra sc sock =
      { status := QUIC_STATUS_SUCCESS, ctx := { sc with CurrentIndex := j }
        sock := sock, freed := false, calls := calls } ∧
    ∃ e, k.sendtoAt j = SendtoOutcome.err e ∧
      (e == EAGAIN || e == EWOULDBLOCK) = true := by
  constructor
  · unfold QuicDataPathBindingSend
    rw [h]
  · exact sendLoopGo_blocked_eagain k.sendtoAt sock.SocketFd sc.Buffers
      (sc.BufferCount - sc.CurrentIndex) sc.CurrentIndex calls j h

/-- Witness for C2 amended at the concrete blocked scenario. -/
theorem c2_blocked_send_behavior_witness :
    QuicDataPathBindingSend exKernelBlock exBinding none exRemoteV6
        exSendContext1 exSocketContext =
      { status := QUIC_STATUS_SUCCESS
        ctx := { exSendContext1 with CurrentIndex := 0 }
        sock := exSocketContext, freed := false
        calls := [Syscall.sendto 4 (some 7) 100 0 none 0] } ∧
    ∃ e, exKernelBlock.sendtoAt 0 = SendtoOutcome.err e ∧
      (e == EAGAIN || e == EWOULDBLOCK) = true :=
  c2_blocked_send_behavior exKernelBlock exBinding exRemoteV6 exSendContext1
    exSocketContext [Syscall.sendto 4 (some 7) 100 0 none 0] 0 (by decide)

/-- Claim C3 (code bug): with no local address and an `AF_INET6` remote
address pinning the family, the first `socket()` call does use
`AF_INET6`, but its descriptor is immediately overwritten by a second
`socket(AF_INET, SOCK_DGRAM, 0)`, so the descriptor stored in
`SocketContext->SocketFd` — the one configured, bound and connected —
is an `AF_INET` socket, not the pinned `AF_INET6` (and never the
claimed dual-stack default). -/
theorem c3_socket_family_hardcoded :
    QuicSocketContextInitializeSockets none (some exRemoteV6) =
      some { socketCallFamilies := [AF_INET6, AF_INET]
             socketFdFamily := AF_INET } ∧
    (AF_INET == AF_INET6) = false := by
  decide

/-- Claim C4 (code bug): a `QuicDataPathBindingCreate` whose single
socket context initializes successfully but whose
`QuicSocketContextStartReceive` fails does release the datapath
`BindingsRundown` reference exactly once and frees the binding, but it
never releases the binding-rundown reference the constructed socket
context holds (1 acquired, 0 released — cleanup is a `TODO` in the
source), so the binding is freed with the reference still
outstanding. -/
theorem c4_create_failure_leaks_rundown_refs :
    QuicDataPathBindingCreateRun 1 (fun _ => true) (fun _ => false) =
      { succeeded := false, fdOpen := [false]
        bindingRundownAcquired := 1, bindingRundownReleased := 0
        bindingsRundownAcquired := 1, bindingsRundownReleased := 1
        bindingFreed := true } := by
  decide

/-- Claim C5 counterexample: the step sequence the claim states (with a
per-socket readiness-queue unregistration before each close) does not
occur as a subsequence of what `QuicDataPathBindingDelete` actually
performs for a one-context binding — the `kevent(..., EV_DELETE, ...)`
call is commented out. -/
theorem c5_delete_counterexample :
    (claimedDeleteSteps 1).isSublist (QuicDataPathBindingDeleteSteps 1) = false := by
  decide

/-- Claim C5 amended: `QuicDataPathBindingDelete` performs, in order:
set the `Shutdown` flag; for each of the `ProcCount` socket contexts
close its descriptor and release one binding-rundown reference (no
readiness-queue unregistration is performed — that call is commented
out); wait for the binding's rundown to drain; release one datapath
`BindingsRundown` reference; free the binding. -/
theorem c5_delete_steps (procCount : Nat) :
    List.Sublist (amendedDeleteSteps procCount)
      (QuicDataPathBindingDeleteSteps procCount) ∧
    (QuicDataPathBindingDeleteSteps procCount).all
      (fun s => !(isUnregisterStep s)) = true := by
  constructor
  · unfold amendedDeleteSteps QuicDataPathBindingDeleteSteps
    refine List.Sublist.cons₂ _ (List.Sublist.append ?_ ?_)
    · have hfun : (fun i => [DeleteStep.closeSocket i, DeleteStep.releaseBindingRundown i]) =
        QuicSocketContextUninitializeSteps := rfl
      rw [hfun]
    · decide
  · rw [List.all_eq_true]
    intro s hs
    unfold QuicDataPathBindingDeleteSteps at hs
    simp only [List.mem_cons, List.mem_append, List.mem_flatMap,
      QuicSocketContextUninitializeSteps] at hs
    rcases hs with rfl | ⟨i, hi, hs⟩ | hs
    · rfl
    · rcases hs with rfl | rfl | h
      · rfl
      · rfl
      · cases h
    · rcases hs with rfl | rfl | rfl | rfl | h
      · rfl
      · rfl
      · rfl
      · rfl
      · cases h

/-- Claim C6 (code bug): with a non-full batch (`BufferCount = 0`) and
an exhausted send-buffer pool, `QuicDataPathBindingAllocSendDatagram`
returns a non-NULL `QUIC_BUFFER*` (the zeroed slot
`&Buffers[BufferCount]`, whose inner `Buffer` pointer is NULL) instead
of the claimed nil; `BufferCount` stays 0.  The datapath's
`MaxSendBatchSize` is 10, and `QuicDataPathBindingIsSendContextFull` is
false here, so the batch-full case does not apply. -/
theorem c6_alloc_send_datagram_nonnull_on_pool_exhaustion :
    (QuicDataPathBindingAllocSendDatagram (QuicDataPathInitialize 0) none
        exSendContextEmpty 1200).1 = some { Buffer := none, Length := 0 } ∧
    (QuicDataPathBindingAllocSendDatagram (QuicDataPathInitialize 0) none
        exSendContextEmpty 1200).2.BufferCount = 0 ∧
    (QuicDataPathInitialize 0).MaxSendBatchSize = 10 ∧
    QuicDataPathBindingIsSendContextFull (QuicDataPathInitialize 0)
      exSendContextEmpty = false := by
  decide

/-- Claim C7: whenever `QuicSocketContextRecvComplete` reaches the user
callback (returns a datagram), the datagram's local-address port equals
the binding's stored local port (for both the `IPV6_PKTINFO` and the
`IP_PKTINFO` branch, and unaffected by the mapped-v6 normalization),
its `BufferLength` equals the `recvmsg` byte count, and its
`PartitionIndex` equals the receiving worker's index. -/
theorem c7_recv_complete_metadata (b : QUIC_DATAPATH_BINDING)
    (init : QUIC_ADDR) (cmsgs : List cmsghdr) (msgName : QUIC_ADDR)
    (bytes procIndex : Nat) (r : RECV_RESULT)
    (h : QuicSocketContextRecvComplete b init cmsgs msgName bytes procIndex = some r) :
    r.LocalAddress.port = b.LocalAddress.port ∧
    r.BufferLength = bytes ∧ r.PartitionIndex = procIndex := by
  unfold QuicSocketContextRecvComplete at h
  cases hf : recvFindLocalAddr b init cmsgs with
  | none => rw [hf] at h; simp at h
  | some la =>
      rw [hf] at h
      simp only [Option.map_some', Option.some.injEq] at h
      subst h
      exact ⟨recvFindLocalAddr_port b init cmsgs la hf, rfl, rfl⟩

/-- Witness for C7 at a concrete `IPV6_PKTINFO` receive. -/
theorem c7_recv_complete_metadata_witness :
    exRecvOut.LocalAddress.port = exBinding.LocalAddress.port ∧
    exRecvOut.BufferLength = 1200 ∧ exRecvOut.PartitionIndex = 0 :=
  c7_recv_complete_metadata exBinding zeroQuicAddr [exCmsg6] exRemoteV6 1200 0
    exRecvOut (by decide)

/-- Claim C8: `QuicSocketContextRecvComplete` survives the
`QUIC_FRE_ASSERT(FoundLocalAddr)` — i.e. produces a datagram rather
than terminating the process — exactly when the control-message walk
finds an `IPV6_PKTINFO` or `IP_PKTINFO` record; with no matching
record, `none` (process termination) results.  The walk applies the
first matching record and breaks, so exactly one record is consumed. -/
theorem c8_recv_asserts_on_missing_pktinfo (b : QUIC_DATAPATH_BINDING)
    (init : QUIC_ADDR) (cmsgs : List cmsghdr) (msgName : QUIC_ADDR)
    (bytes procIndex : Nat) :
    (QuicSocketContextRecvComplete b init cmsgs msgName bytes procIndex).isSome =
      cmsgs.any isPktInfoMatch := by
  unfold QuicSocketContextRecvComplete
  rw [Option.isSome_map']
  exact recvFindLocalAddr_isSome b init cmsgs

/-- Claim C9: `QuicDataPathBindingReturnRecvDatagrams` walks the whole
`Next` chain and frees each block to exactly the pool in its
`OwningPool` field, skipping none; and `QuicDataPathAllocRecvBlock`
sets `OwningPool` to precisely the recv-block pool of the processor
context it allocated from (no other embedded operation writes the
field), so every alloc/return pair round-trips through the same
pool. -/
theorem c9_recv_block_pool_round_trip :
    (∀ chain : List QUIC_DATAPATH_RECV_BLOCK,
        QuicDataPathBindingReturnRecvDatagrams chain =
          chain.map fun blk => (blk.OwningPool, blk.BlockId)) ∧
    (∀ (dp : QUIC_DATAPATH) (i blockId : Nat),
        QuicDataPathAllocRecvBlock dp i (some blockId) =
          some { OwningPool := (dp.ProcContexts.getD i default).RecvBlockPool
                 BlockId := blockId, Allocated := true }) ∧
    (∀ (dp : QUIC_DATAPATH) (i : Nat),
        QuicDataPathAllocRecvBlock dp i none = none) := by
  refine ⟨?_, fun _ _ _ => rfl, fun _ _ => rfl⟩
  intro chain
  induction chain with
  | nil => rfl
  | cons blk rest ih =>
      simp [QuicDataPathBindingReturnRecvDatagrams, ih]

/-- Claim C10: on the connected path (`LocalAddress == NULL`), the
`RemoteAddress` argument has no influence on the kernel interaction or
on anything else the call does — two calls differing only in
`RemoteAddress` produce identical results, including the identical
syscall sequence — and every syscall issued is a
`sendto(fd, buf, len, 0, NULL, 0)` with a NULL destination address, so
the actual destination is fixed by the socket's prior connect state. -/
theorem c10_connected_send_ignores_remote (k : KernelModel)
    (b : QUIC_DATAPATH_BINDING) (ra1 ra2 : QUIC_ADDR)
    (sc : QUIC_DATAPATH_SEND_CONTEXT) (sock : QUIC_SOCKET_CONTEXT) :
    QuicDataPathBindingSend k b none ra1 sc sock =
      QuicDataPathBindingSend k b none ra2 sc sock ∧
    ((QuicDataPathBindingSend k b none ra1 sc sock).calls.all
      isPlainSendto) = true := by
  refine ⟨rfl, ?_⟩
  exact sendLoopGo_calls_plain k.sendtoAt sock.SocketFd sc.Buffers
    (sc.BufferCount - sc.CurrentIndex) sc.CurrentIndex
